import Mathlib

/-!
Verification of the focused-traceback logging core of the repository
(`logger/focused_traceback.py` and `logger/logger.py`).

The Python code is embedded shallowly.  Machine strings are Lean strings
(sequences of characters); the Python string primitives the code relies on
(`split`, `strip`, `lower`, slicing, `in`, `startswith`, `join`) are given
structural-recursive definitions over the character list so that every
definition evaluates.  A Python runtime value seen by the renderer is
abstracted to the two observations the code makes of it: whether it is
callable, and the outcome of `repr` (which may raise).  A traceback is the
list of its frame records in walk order (outermost first), matching the
`tb_next` chain.  Reads of `os.getenv(X)` are passed in as an
`Option String` argument (`none` meaning the variable is unset).
-/

/-! ## Python string primitives -/

/-- Embedding of Python `str.split(sep)` for a one-character separator:
splits at every occurrence, keeping empty pieces; the empty string yields
a single empty piece, as in Python. -/
def splitChar (sep : Char) : List Char → List (List Char)
  | [] => [[]]
  | c :: cs =>
    if c = sep then [] :: splitChar sep cs
    else
      match splitChar sep cs with
      | [] => [[c]]
      | piece :: rest => (c :: piece) :: rest

/-- Embedding of Python `s.split(",")` on a string. -/
def pySplitComma (s : String) : List String :=
  (splitChar ',' s.data).map (fun cs => ⟨cs⟩)

/-- Embedding of Python `str.strip()`: drop whitespace from both ends. -/
def pyStrip (s : String) : String :=
  ⟨((s.data.dropWhile Char.isWhitespace).reverse.dropWhile Char.isWhitespace).reverse⟩

/-- Embedding of Python `pattern in s`: literal case-sensitive substring
containment. -/
def pyContains (s pattern : String) : Bool :=
  s.data.tails.any (fun t => pattern.data.isPrefixOf t)

/-- Embedding of Python `s.startswith(p)`. -/
def pyStartsWith (s p : String) : Bool :=
  p.data.isPrefixOf s.data

/-- Embedding of Python slicing `s[:n]` for a non-negative bound: the first
`n` characters. -/
def pyTake (s : String) (n : Nat) : String :=
  ⟨s.data.take n⟩

/-- ASCII lower-casing of one character, as Python `str.lower` acts on the
ASCII range. -/
def lowerChar (c : Char) : Char :=
  if 'A' ≤ c && c ≤ 'Z' then Char.ofNat (c.toNat + 32) else c

/-- Embedding of Python `s.lower()` (ASCII range). -/
def pyLower (s : String) : String :=
  ⟨s.data.map lowerChar⟩

/-- Embedding of Python `sep.join(parts)`. -/
def pyJoin (sep : String) : List String → String
  | [] => ""
  | [s] => s
  | s :: rest => s ++ sep ++ pyJoin sep rest

/-- Embedding of Python slicing `parts[-3:]`: the last three elements (all
of them if there are fewer). -/
def lastThree {α : Type} (parts : List α) : List α :=
  parts.drop (parts.length - 3)

/-! ## Data model -/

/-- A Python runtime value as observed by the locals renderer: whether
`callable(v)` holds, and the outcome of `repr(v)` — `some text` on success,
`none` when computing the representation raises. -/
structure Value where
  isCallable : Bool
  reprResult : Option String
deriving DecidableEq

/-- One record of the traceback walk in `_print_user_code_locals`: the
filename of the frame, the line number at the traceback node, the name of
the code object, and a snapshot of the local bindings of the frame in
insertion order (Python dicts preserve insertion order and have distinct
keys). -/
structure FrameInfo where
  filename : String
  lineno : Nat
  name : String
  locals : List (String × Value)
deriving DecidableEq

/-! ## Embedding of focused_traceback.py -/

/-- The constant `DEFAULT_USER_CODE_PATHS` of `focused_traceback.py`. -/
def DEFAULT_USER_CODE_PATHS : List String :=
  ["dcc_backend_common", "src/", "app/", "tests/"]

/-- Embedding of `_get_user_code_paths`: the defaults, extended by the
comma-separated entries of `LOGGER_USER_CODE_PATHS` (stripped, entries that
are empty after stripping dropped) when that variable holds a non-empty
string. -/
def _get_user_code_paths (envPaths : Option String) : List String :=
  let env := envPaths.getD ""
  if env ≠ "" then
    DEFAULT_USER_CODE_PATHS ++ ((pySplitComma env).map pyStrip).filter (fun p => p ≠ "")
  else
    DEFAULT_USER_CODE_PATHS

/-- Embedding of `_is_user_code_frame`: does any active pattern occur
literally in the filename? -/
def _is_user_code_frame (envPaths : Option String) (filename : String) : Bool :=
  (_get_user_code_paths envPaths).any (fun path => pyContains filename path)

/-- ANSI escape `CYAN_BOLD` of the renderer. -/
def CYAN_BOLD : String := "\x1b[1;36m"

/-- ANSI escape `YELLOW_BOLD` of the renderer. -/
def YELLOW_BOLD : String := "\x1b[1;33m"

/-- ANSI escape `GREEN` of the renderer. -/
def GREEN : String := "\x1b[32m"

/-- ANSI escape `RESET` of the renderer. -/
def RESET : String := "\x1b[0m"

/-- The truncation step of the renderer loop (source lines 139 to 141):
representations longer than `locals_max_string` are cut to that length and
an ellipsis marker is appended; shorter ones pass through unchanged. -/
def truncateRepr (locals_max_string : Nat) (r : String) : String :=
  if r.length > locals_max_string then pyTake r locals_max_string ++ "..." else r

/-- One iteration of the variable loop: the line written for a binding.
The `try` block covers exactly the computation of `repr(value)`; on failure
the placeholder line is written instead. -/
def renderVarLine (locals_max_string : Nat) (varName : String) (v : Value) : String :=
  match v.reprResult with
  | some r => "  " ++ GREEN ++ varName ++ RESET ++ " = " ++ truncateRepr locals_max_string r ++ "\n"
  | none => "  " ++ GREEN ++ varName ++ RESET ++ " = <repr failed>\n"

/-- The filter of the dict comprehension (source line 130): keep a binding
unless its name starts with an underscore, equals `self` or `cls`, or its
value is callable. -/
def keepLocal (kv : String × Value) : Bool :=
  !(pyStartsWith kv.1 "_") && kv.1 ≠ "self" && kv.1 ≠ "cls" && !kv.2.isCallable

/-- The variable `filtered_locals` (the dict comprehension): since the
local names of a frame are distinct and insertion-ordered, the
comprehension is a list filter. -/
def filteredLocals (locals : List (String × Value)) : List (String × Value) :=
  locals.filter keepLocal

/-- The sequence of variable lines the loop writes for the locals of a
frame. -/
def varLines (locals_max_string : Nat) (locals : List (String × Value)) : List String :=
  (filteredLocals locals).map (fun kv => renderVarLine locals_max_string kv.1 kv.2)

/-- The pairs of variable name and written line emitted by the variable
loop of the renderer, in emission order. -/
def renderedEntries (locals_max_string : Nat) (locals : List (String × Value)) :
    List (String × String) :=
  (filteredLocals locals).map (fun kv => (kv.1, renderVarLine locals_max_string kv.1 kv.2))

/-- The compact path display: join the last three segments of the filename
split on the path separator. -/
def shortPath (filename : String) : String :=
  pyJoin "/" (lastThree ((splitChar '/' filename.data).map (fun cs => (⟨cs⟩ : String))))

/-- The per-frame header line written for each user-code frame. -/
def frameHeader (f : FrameInfo) : String :=
  "\n" ++ YELLOW_BOLD ++ "► " ++ shortPath f.filename ++ ":" ++ toString f.lineno ++
    " in " ++ f.name ++ "()" ++ RESET ++ "\n"

/-- Everything `_print_user_code_locals` writes for a single user-code
frame: the header, then the empty-locals marker, the all-filtered marker,
or the variable lines. -/
def renderFrame (locals_max_string : Nat) (f : FrameInfo) : String :=
  frameHeader f ++
    (if f.locals.isEmpty then "  (no local variables)\n"
     else if (filteredLocals f.locals).isEmpty then "  (no relevant local variables)\n"
     else String.join (varLines locals_max_string f.locals))

/-- The traceback walk of `_print_user_code_locals` (source lines 90 to
102): the frame records whose filename is classified as user code, in walk
order. -/
def collectUserFrames (envPaths : Option String) (tb : List FrameInfo) : List FrameInfo :=
  tb.filter (fun f => _is_user_code_frame envPaths f.filename)

/-- The focused-section header line. -/
def SECTION_HEADER : String :=
  "\n" ++ CYAN_BOLD ++ "━━━ Local variables in your code ━━━" ++ RESET ++ "\n"

/-- Embedding of `_print_user_code_locals` as the string it writes to the
sink: nothing when no frame is user code, otherwise the section header
followed by the rendering of each user-code frame. -/
def _print_user_code_locals (envPaths : Option String) (locals_max_string : Nat)
    (tb : List FrameInfo) : String :=
  let user_frames := collectUserFrames envPaths tb
  if user_frames.isEmpty then ""
  else SECTION_HEADER ++ String.join (user_frames.map (renderFrame locals_max_string))

/-- Embedding of `FocusedTracebackFormatter.__call__` as the total string
written to the sink: the delegate-rendered base trace (step 1 delegates to
the external rich renderer, whose output is written verbatim) followed by
the focused section. -/
def formatterCall (baseRendered : String) (envPaths : Option String)
    (locals_max_string : Nat) (tb : List FrameInfo) : String :=
  baseRendered ++ _print_user_code_locals envPaths locals_max_string tb

/-- Modelled from the spec: the set of frames the delegate base-trace
renderer shows.  The delegate (the external rich-traceback capability of
spec section 4.4 step 1) is not part of the source of this repository; the
spec fixes `max_frames` as the maximum number of frames shown.  Following
the trimming behaviour of the delegate, when the stack exceeds the limit
the outermost `max_frames / 2` and innermost `max_frames / 2` frames are
kept and the middle is hidden; `max_frames = 0` disables the limit. -/
def baseTraceFrames (max_frames : Nat) (tb : List FrameInfo) : List FrameInfo :=
  if max_frames = 0 then tb
  else if 2 * (max_frames / 2) < tb.length then
    tb.take (max_frames / 2) ++ tb.drop (tb.length - max_frames / 2)
  else tb

/-! ## Embedding of logger.py -/

/-- The enumeration `DevTracebackStyle` (a `StrEnum` with values
`"focused"` and `"rich"`). -/
inductive DevTracebackStyle
  | focused
  | rich
deriving DecidableEq

/-- The `StrEnum` value lookup `DevTracebackStyle(style)`: succeeds exactly
on the two member values. -/
def devTracebackStyleOfString (s : String) : Option DevTracebackStyle :=
  if s = "focused" then some DevTracebackStyle.focused
  else if s = "rich" then some DevTracebackStyle.rich
  else none

/-- Embedding of `_get_dev_traceback_style`: read `DEV_TRACEBACK_STYLE`
(default `"focused"`), lower-case it, and look it up; a failed lookup (a
`ValueError`) falls back to the focused style. -/
def _get_dev_traceback_style (env : Option String) : DevTracebackStyle :=
  let style := pyLower (env.getD "focused")
  match devTracebackStyleOfString style with
  | some st => st
  | none => DevTracebackStyle.focused

/-- Embedding of `add_request_id`: the event dict gains a `request_id`
entry holding the freshly generated identifier only when none is present.
Event dicts are insertion-ordered keyed records; assigning a new key
appends it. -/
def add_request_id {α : Type} (freshId : α) (event_dict : List (String × α)) :
    List (String × α) :=
  if event_dict.any (fun kv => kv.1 = "request_id") then event_dict
  else event_dict ++ [("request_id", freshId)]

/-! ## Specification-side definitions (for refinement claims) -/

/-- The active pattern set as the specification states it: the four fixed
defaults, extended (never replaced) by the comma-separated entries of
`LOGGER_USER_CODE_PATHS`, each trimmed of surrounding whitespace, entries
that are empty after trimming dropped; an unset variable contributes no
entries. -/
def specActivePatterns (envPaths : Option String) : List String :=
  DEFAULT_USER_CODE_PATHS ++
    (match envPaths with
     | none => []
     | some s => ((pySplitComma s).map pyStrip).filter (fun p => p ≠ ""))

/-- The filtering law as the specification states it: the original binding
names of the frame, with underscore-prefixed names, the two self-reference
names, and names bound to callables removed, keeping the original order. -/
def specSurvivingNames (locals : List (String × Value)) : List String :=
  (locals.filter (fun kv =>
    !(pyStartsWith kv.1 "_") && kv.1 ≠ "self" && kv.1 ≠ "cls" && !kv.2.isCallable)).map Prod.fst

/-! ## Concrete fixtures used by witnesses and the counterexample -/

/-- A user-code frame (filename matches the default pattern `src/`) with
line number `i` and one plain local binding. -/
def cexFrame (i : Nat) : FrameInfo :=
  { filename := "src/app.py", lineno := i, name := "f", locals := [("x", ⟨false, some "1"⟩)] }

/-- A traceback of 31 user-code frames: one more than the `max_frames = 30`
the logger wiring configures the formatter with. -/
def cexTb : List FrameInfo := (List.range 31).map cexFrame

/-- Locals with one well-behaved binding and one whose representation
computation raises. -/
def c5Locals : List (String × Value) :=
  [("a", ⟨false, some "1"⟩), ("b", ⟨false, none⟩)]

/-- A library frame: no default pattern occurs in its filename. -/
def libFrame : FrameInfo :=
  { filename := "/usr/lib/python3.12/json/encoder.py", lineno := 7, name := "default", locals := [] }

/-- A user-code frame with no local bindings at all. -/
def emptyLocalsFrame : FrameInfo :=
  { filename := "src/a.py", lineno := 1, name := "g", locals := [] }

/-- A user-code frame whose only local binding is `self`, so filtering
removes everything. -/
def filteredOutFrame : FrameInfo :=
  { filename := "src/a.py", lineno := 2, name := "h", locals := [("self", ⟨false, some "obj"⟩)] }

/-! ## Helper lemmas -/

/-- The embedded `_get_user_code_paths` computes exactly the pattern set
the specification describes, including the edge cases of an unset variable
and of a variable set to the empty string. -/
theorem get_user_code_paths_eq_spec (envPaths : Option String) :
    _get_user_code_paths envPaths = specActivePatterns envPaths := by
  cases envPaths with
  | none => rfl
  | some s =>
    by_cases hs : s = ""
    · subst hs; decide
    · simp [_get_user_code_paths, specActivePatterns, hs]

/-- A string with a non-empty left part stays non-empty under append. -/
theorem str_append_ne_empty {a b : String} (h : 0 < a.length) : a ++ b ≠ "" := by
  intro hc
  have h2 := congrArg String.length hc
  rw [String.length_append] at h2
  have h3 : ("" : String).length = 0 := rfl
  omega

/-! ## Claims -/

/-- C1, counterexample: with the configured `max_frames = 30` and a
traceback of 31 user-code frames, the middle frame receives locals in the
focused section but is hidden from the base trace, so the subset invariant
fails as stated. -/
theorem focused_not_subset_base_cex :
    cexFrame 15 ∈ collectUserFrames none cexTb ∧
    cexFrame 15 ∉ baseTraceFrames 30 cexTb := by decide

/-- C1, amended: whenever the traceback has at most `2 * (max_frames / 2)`
frames (that is, at most `max_frames` for the even values the repository
configures), every frame shown with locals in the focused section is among
the frames shown in the base trace. -/
theorem focused_frames_subset_base (envPaths : Option String) (max_frames : Nat)
    (tb : List FrameInfo) (h : tb.length ≤ 2 * (max_frames / 2)) :
    ∀ f ∈ collectUserFrames envPaths tb, f ∈ baseTraceFrames max_frames tb := by
  intro f hf
  have hmem : f ∈ tb := List.mem_of_mem_filter hf
  unfold baseTraceFrames
  split
  · exact hmem
  · rw [if_neg (by omega)]
    exact hmem

/-- Witness for the amended C1 at a one-frame traceback. -/
theorem focused_frames_subset_base_witness :
    cexFrame 0 ∈ baseTraceFrames 30 [cexFrame 0] :=
  focused_frames_subset_base none 30 [cexFrame 0] (by decide) (cexFrame 0) (by decide)

/-- C2: the names emitted by the variable loop are exactly the original
local binding names minus underscore-prefixed names, minus `self` and
`cls`, minus names bound to callables (the filtering law as the
specification words it); they form a sublist of the original names, hence
keep the original insertion order; and the written variable lines are
exactly the lines of those emitted entries. -/
theorem rendered_names_filtering_law (m : Nat) (locals : List (String × Value)) :
    (renderedEntries m locals).map Prod.fst = specSurvivingNames locals ∧
    ((renderedEntries m locals).map Prod.fst).Sublist (locals.map Prod.fst) ∧
    varLines m locals = (renderedEntries m locals).map Prod.snd := by
  refine ⟨?_, ?_, ?_⟩
  · have hfil : List.filter keepLocal locals =
        List.filter (fun kv =>
          !(pyStartsWith kv.1 "_") && kv.1 ≠ "self" && kv.1 ≠ "cls" && !kv.2.isCallable) locals := by
      apply List.filter_congr
      intro kv _
      simp [keepLocal, decide_not]
    simp [renderedEntries, specSurvivingNames, filteredLocals, List.map_map, hfil]
  · have h1 : ((renderedEntries m locals).map Prod.fst) = (filteredLocals locals).map Prod.fst := by
      simp [renderedEntries, List.map_map]
    rw [h1]
    exact (List.filter_sublist locals).map Prod.fst
  · simp [varLines, renderedEntries, List.map_map]

/-- C3: a representation strictly longer than `locals_max_string` is
emitted with length exactly `locals_max_string` plus the length of the
ellipsis marker, and a representation within the limit is emitted
unchanged. -/
theorem truncation_law (locals_max_string : Nat) (r : String) :
    (r.length > locals_max_string →
      (truncateRepr locals_max_string r).length = locals_max_string + "...".length) ∧
    (r.length ≤ locals_max_string → truncateRepr locals_max_string r = r) := by
  obtain ⟨cs⟩ := r
  constructor
  · intro h
    unfold truncateRepr
    rw [if_pos h, String.length_append]
    have h2 : (pyTake (String.mk cs) locals_max_string).length = locals_max_string := by
      have hc : (String.mk cs).length = cs.length := rfl
      simp only [pyTake, String.length, List.length_take]
      rw [hc] at h
      omega
    rw [h2]
  · intro h
    unfold truncateRepr
    rw [if_neg (by omega)]

/-- Witness for C3 at a six-character representation and limit three. -/
theorem truncation_law_witness :
    (truncateRepr 3 "abcdef").length = 3 + "...".length ∧ truncateRepr 3 "abc" = "abc" :=
  ⟨(truncation_law 3 "abcdef").1 (by decide), (truncation_law 3 "abc").2 (by decide)⟩

/-- C4: a path is classified as user code exactly when some pattern of the
active set — the four defaults extended, never replaced, by the trimmed
non-empty comma-separated entries of `LOGGER_USER_CODE_PATHS` — is a
literal case-sensitive substring of the path. -/
theorem is_user_code_iff_pattern_substring (envPaths : Option String) (filePath : String) :
    _is_user_code_frame envPaths filePath = true ↔
      ∃ pattern ∈ specActivePatterns envPaths, pyContains filePath pattern = true := by
  unfold _is_user_code_frame
  rw [get_user_code_paths_eq_spec]
  exact List.any_eq_true

/-- C5: a value whose representation computation raises is rendered as the
placeholder line instead of propagating the failure, and every variable
line of a frame is a function of its own entry alone, so a failing value
leaves the lines of all other variables unchanged. -/
theorem render_failure_isolated (m : Nat) (locals : List (String × Value))
    (varName : String) (v : Value) (hv : v.reprResult = none) :
    renderVarLine m varName v = "  " ++ GREEN ++ varName ++ RESET ++ " = <repr failed>\n" ∧
    ∀ (j : Nat) (hj : j < (varLines m locals).length) (hj2 : j < (filteredLocals locals).length),
      (varLines m locals).get ⟨j, hj⟩ =
        renderVarLine m ((filteredLocals locals).get ⟨j, hj2⟩).1
          ((filteredLocals locals).get ⟨j, hj2⟩).2 := by
  constructor
  · simp [renderVarLine, hv]
  · intro j hj hj2
    simp [varLines, List.get_eq_getElem, List.getElem_map]

/-- Witness for C5: a frame holding one good and one hostile value. -/
theorem render_failure_isolated_witness :
    renderVarLine 10 "b" ⟨false, none⟩ = "  " ++ GREEN ++ "b" ++ RESET ++ " = <repr failed>\n" ∧
    (varLines 10 c5Locals).get ⟨1, by decide⟩ =
      renderVarLine 10 ((filteredLocals c5Locals).get ⟨1, by decide⟩).1
        ((filteredLocals c5Locals).get ⟨1, by decide⟩).2 :=
  ⟨(render_failure_isolated 10 c5Locals "b" ⟨false, none⟩ rfl).1,
   (render_failure_isolated 10 c5Locals "b" ⟨false, none⟩ rfl).2 1 (by decide) (by decide)⟩

/-- C6: when no frame of the traceback is classified as user code, the
focused section is the empty string and the formatter writes exactly the
delegate-rendered base trace, nothing more. -/
theorem no_user_frames_no_focused_section (baseRendered : String) (envPaths : Option String)
    (m : Nat) (tb : List FrameInfo) (h : collectUserFrames envPaths tb = []) :
    _print_user_code_locals envPaths m tb = "" ∧
    formatterCall baseRendered envPaths m tb = baseRendered := by
  have h1 : _print_user_code_locals envPaths m tb = "" := by
    simp [_print_user_code_locals, h]
  exact ⟨h1, by simp [formatterCall, h1]⟩

/-- Witness for C6 at a traceback holding a single library frame. -/
theorem no_user_frames_no_focused_section_witness :
    _print_user_code_locals none 80 [libFrame] = "" ∧
    formatterCall "BASE" none 80 [libFrame] = "BASE" :=
  no_user_frames_no_focused_section "BASE" none 80 [libFrame] (by decide)

/-- C7: a user-code frame with no locals at all is rendered with the
explicit no-local-variables marker, a frame whose locals are all filtered
out is rendered with the distinct no-relevant-local-variables marker, the
two markers differ, and the rendering of a frame is never the empty
string. -/
theorem empty_locals_markers (m : Nat) (f : FrameInfo) :
    (f.locals = [] → renderFrame m f = frameHeader f ++ "  (no local variables)\n") ∧
    (f.locals ≠ [] → filteredLocals f.locals = [] →
      renderFrame m f = frameHeader f ++ "  (no relevant local variables)\n") ∧
    ("  (no local variables)\n" : String) ≠ "  (no relevant local variables)\n" ∧
    renderFrame m f ≠ "" := by
  refine ⟨?_, ?_, by decide, ?_⟩
  · intro h
    simp [renderFrame, h]
  · intro h1 h2
    simp [renderFrame, h1, h2]
  · unfold renderFrame
    apply str_append_ne_empty
    unfold frameHeader
    rw [String.length_append]
    have h1 : ("\n" : String).length = 1 := rfl
    omega

/-- Witness for C7 at a frame without locals and a frame whose single
local is filtered out. -/
theorem empty_locals_markers_witness :
    renderFrame 80 emptyLocalsFrame = frameHeader emptyLocalsFrame ++ "  (no local variables)\n" ∧
    renderFrame 80 filteredOutFrame = frameHeader filteredOutFrame ++ "  (no relevant local variables)\n" :=
  ⟨(empty_locals_markers 80 emptyLocalsFrame).1 rfl,
   (empty_locals_markers 80 filteredOutFrame).2.1 (by decide) (by decide)⟩

/-- C8: any value of `DEV_TRACEBACK_STYLE` that is not a recognised style
(after lower-casing) selects the focused style; the lookup failure is
absorbed, never surfaced. -/
theorem invalid_style_falls_back (s : String)
    (h1 : pyLower s ≠ "focused") (h2 : pyLower s ≠ "rich") :
    _get_dev_traceback_style (some s) = DevTracebackStyle.focused := by
  simp [_get_dev_traceback_style, devTracebackStyleOfString, h1, h2]

/-- Witness for C8 at an unrecognised style value. -/
theorem invalid_style_falls_back_witness :
    _get_dev_traceback_style (some "bogus") = DevTracebackStyle.focused :=
  invalid_style_falls_back "bogus" (by decide) (by decide)

/-- C10: the style value is lower-cased before comparison, so any casing
whose lower-casing is `focused` selects the focused style and any casing
whose lower-casing is `rich` selects the rich style. -/
theorem style_match_case_insensitive (s : String) :
    (pyLower s = "focused" → _get_dev_traceback_style (some s) = DevTracebackStyle.focused) ∧
    (pyLower s = "rich" → _get_dev_traceback_style (some s) = DevTracebackStyle.rich) := by
  constructor <;> intro h <;> simp [_get_dev_traceback_style, devTracebackStyleOfString, h]

/-- Witness for C10 at the casings RICH and Focused. -/
theorem style_match_case_insensitive_witness :
    _get_dev_traceback_style (some "RICH") = DevTracebackStyle.rich ∧
    _get_dev_traceback_style (some "Focused") = DevTracebackStyle.focused :=
  ⟨(style_match_case_insensitive "RICH").2 (by decide),
   (style_match_case_insensitive "Focused").1 (by decide)⟩

/-- C9: an event dict that already holds a `request_id` field is returned
unchanged; one that does not gets exactly one `request_id` entry holding
the freshly generated identifier appended; and in both cases the lookup of
every other field is unchanged. -/
theorem add_request_id_spec {α : Type} (freshId : α) (event_dict : List (String × α)) :
    (event_dict.any (fun kv => kv.1 = "request_id") = true →
      add_request_id freshId event_dict = event_dict) ∧
    (event_dict.any (fun kv => kv.1 = "request_id") = false →
      add_request_id freshId event_dict = event_dict ++ [("request_id", freshId)]) ∧
    (∀ k : String, k ≠ "request_id" →
      (add_request_id freshId event_dict).lookup k = event_dict.lookup k) := by
  refine ⟨?_, ?_, ?_⟩
  · intro h
    simp [add_request_id, h]
  · intro h
    unfold add_request_id
    rw [if_neg (by simp [h])]
  · intro k hk
    by_cases h : event_dict.any (fun kv => kv.1 = "request_id") = true
    · simp [add_request_id, h]
    · unfold add_request_id
      rw [if_neg h]
      rw [List.lookup_append]
      have hbeq : (k == "request_id") = false := by simpa using hk
      have hone : List.lookup k [("request_id", freshId)] = none := by
        simp [List.lookup, hbeq]
      rw [hone, Option.or_none]

/-- Witness for C9: one dict without and one with a `request_id` field. -/
theorem add_request_id_spec_witness :
    add_request_id "u1" [("event", "x")] = [("event", "x"), ("request_id", "u1")] ∧
    add_request_id "u2" [("request_id", "r0")] = [("request_id", "r0")] ∧
    (add_request_id "u1" [("event", "x")]).lookup "event" =
      (([("event", "x")] : List (String × String)).lookup "event") :=
  ⟨(add_request_id_spec "u1" [("event", "x")]).2.1 (by decide),
   (add_request_id_spec "u2" [("request_id", "r0")]).1 (by decide),
   (add_request_id_spec "u1" [("event", "x")]).2.2 "event" (by decide)⟩
